import Mathlib

/-!
# Verification of `mobx-orm` (appjudo/mobx-orm)

A shallow embedding, in Lean 4, of the state-bearing core of the
`mobx-orm` library: the `PaginatedObservableList` and `ObservableList`
containers of `src/ObservableList.ts`, the identity cache
(`AjaxRepository.cacheItem`) and the `getById` request-coalescing path of
`src/AjaxRepository.ts`, and the array-backed provider of
`getPaginatedObservableListFromArray`.

Modelling conventions:
* JavaScript arrays with holes are `List (Option _)`; reading out of
  bounds yields `none` (JS `undefined`), and assigning past the end grows
  the array with holes, as in JS.
* Promise/future completion is modelled by explicit handler functions:
  the body of a `.then(...)` / `.catch(...)` callback becomes a state
  transformer applied when the corresponding response arrives.  The
  values a callback captured from its enclosing scope at request time
  (`loadedVersionNumber`, `pageLoadContext`, the promise identity) are
  carried in a `PageFetch` record.
* The `pageLoadContext` object that `cancelPendingPageLoads` swaps out is
  modelled by a generation counter `contextGen`: a fetch is "cancelled"
  exactly when the generation it captured is no longer the current one.
* Provider invocations are observed through an instrumentation counter
  `fetchCount` and fresh promise identities `nextPromiseId`; these fields
  are write-only from the embedded code's point of view and exist so that
  theorems can speak about how many network requests were issued.
* Entity items are opaque (`α`); dates are `Nat` ticks; error values and
  metadata are `Nat` / `Int` tokens.  JS numbers that the code compares
  against the `-1` sentinel (`totalLength`) are `Int`.
-/

namespace MobxOrm

/-! ## JavaScript array primitives -/

/-- JS `array[i]` read: `undefined` (`none`) when out of bounds or a hole. -/
def jsGet (l : List (Option α)) (i : Nat) : Option α :=
  l.getD i none

/-- JS `array[i] = v` write (with `v` possibly `undefined`): in-bounds
assignment replaces the slot; past-the-end assignment grows the array,
padding the gap with holes. -/
def jsSetOpt (l : List (Option α)) (i : Nat) (v : Option α) : List (Option α) :=
  if i < l.length then l.set i v
  else l ++ List.replicate (i - l.length) none ++ [v]

/-- JS `array[i] = v` with a defined value. -/
def jsSet (l : List (Option α)) (i : Nat) (v : α) : List (Option α) :=
  jsSetOpt l i (some v)

/-- JS `array.length = n` used for growth only (`if (arr.length < n) arr.length = n`):
pads with holes up to length `n`. -/
def growTo (l : List (Option α)) (n : Nat) : List (Option α) :=
  if l.length < n then l ++ List.replicate (n - l.length) none else l

/-- The item-writing loop of the page-success handler:
`for (i = 0; i < data.length; i++) arr[start + i] = data[i]`. -/
def writePage (l : List (Option α)) (start : Nat) (data : List α) : List (Option α) :=
  match data with
  | [] => l
  | d :: rest => writePage (jsSet l start d) (start + 1) rest

/-- JS `array.slice(begin, end)` for non-negative `begin`/`end`:
the elements at indices `[begin, min end length)`. -/
def jsSlice (l : List α) (start stop : Nat) : List α :=
  (l.take stop).drop start

/-! ## Shared response payload

A provider response is a `List<T>`: an array of items optionally carrying
`metadata` and `totalLength` side attributes (`'metadata' in source`
tests presence, modelled by `Option`). -/

structure Payload (α : Type) where
  items : List α
  metadata : Option Int := none
  totalLength : Option Int := none
  deriving Repr, DecidableEq

/-! ## `PaginatedObservableList` -/

/-- The closure environment of one in-flight page fetch: the constants the
`then`/`catch` callbacks of `loadPageAtIndex` captured at request time
(`pageIndex`, `loadedVersionNumber`, `pageLoadContext`), plus the identity
of the page promise created for it. -/
structure PageFetch where
  pageIndex : Nat
  capturedVersion : Nat
  capturedGen : Nat
  promiseId : Nat
  deriving Repr, DecidableEq

/-- Observable state of a `PaginatedObservableList<α>`.

Fields mirror the TypeScript instance fields; `contextGen` stands for the
current `pageLoadContext` object (see module header), and `fetchCount` /
`nextPromiseId` are instrumentation observing provider calls. -/
structure PState (α : Type) where
  items : List (Option α)
  itemVersionNumbers : List (Option Nat)
  versionNumber : Nat
  totalLength : Int
  metadata : Option Int
  error : Option Nat
  isLoading : Bool
  isReloading : Bool
  isFullyLoaded : Bool
  loadedDate : Option Nat
  fullyLoadedDate : Option Nat
  pageSize : Nat
  contextGen : Nat
  loadingPageVersionNumbers : List (Option Nat)
  pagePromises : List (Option Nat)
  loadingPageCount : Int
  fetchCount : Nat
  nextPromiseId : Nat
  deriving Repr, DecidableEq

/-- The state built by the `PaginatedObservableList` constructor. -/
def PState.init (α : Type) (pageSize : Nat) : PState α where
  items := []
  itemVersionNumbers := []
  versionNumber := 1
  totalLength := -1
  metadata := none
  error := none
  isLoading := false
  isReloading := false
  isFullyLoaded := false
  loadedDate := none
  fullyLoadedDate := none
  pageSize := pageSize
  contextGen := 0
  loadingPageVersionNumbers := []
  pagePromises := []
  loadingPageCount := 0
  fetchCount := 0
  nextPromiseId := 0

/-- The dedup guard at the top of `loadPageAtIndex`:
`loadingPageVersionNumbers.length > pageIndex &&
 loadingPageVersionNumbers[pageIndex] === versionNumber`. -/
def pageLoadPending (s : PState α) (pageIndex : Nat) : Bool :=
  decide (s.loadingPageVersionNumbers.length > pageIndex) &&
    (jsGet s.loadingPageVersionNumbers pageIndex == some s.versionNumber)

/-- What `loadPageAtIndex` returned: the already-registered page promise
(possibly `undefined`), or a freshly started fetch. -/
inductive LoadPageResult where
  | existing : Option Nat → LoadPageResult
  | started : PageFetch → LoadPageResult
  deriving Repr, DecidableEq

/-- `PaginatedObservableList.loadPageAtIndex` up to the point where the
provider promise is created and registered (the synchronous part of the
method).  The async continuations are `pageLoadSucceed`/`pageLoadFail`. -/
def loadPageAtIndex (s : PState α) (pageIndex : Nat) : PState α × LoadPageResult :=
  if pageLoadPending s pageIndex then
    (s, .existing (jsGet s.pagePromises pageIndex))
  else
    let pid := s.nextPromiseId
    ({ s with
        error := none
        pagePromises := jsSet s.pagePromises pageIndex pid
        loadingPageVersionNumbers := jsSet s.loadingPageVersionNumbers pageIndex s.versionNumber
        loadingPageCount := s.loadingPageCount + 1
        isLoading := true
        fetchCount := s.fetchCount + 1
        nextPromiseId := pid + 1 },
      .started ⟨pageIndex, s.versionNumber, s.contextGen, pid⟩)

/-- The success continuation of a page fetch (the `action` passed to
`pagePromise = provider(...).then(...)` in `loadPageAtIndex`), applied
when the response `d` arrives at time `now`.  Drops out early iff the
captured `pageLoadContext` has been cancelled. -/
def pageLoadSucceed (s : PState α) (f : PageFetch) (d : Payload α) (now : Nat) : PState α :=
  if f.capturedGen = s.contextGen then
    let startIndex := s.pageSize * f.pageIndex
    let items' := writePage (growTo s.items startIndex) startIndex d.items
    let stamps' := writePage (growTo s.itemVersionNumbers startIndex) startIndex
      (List.replicate d.items.length f.capturedVersion)
    let totalLength' := d.totalLength.getD s.totalLength
    let fullyLoaded' := decide ((stamps'.length : Int) ≥ totalLength') &&
      stamps'.all (fun v => v == some s.versionNumber)
    let count' := s.loadingPageCount - 1
    { s with
        items := items'
        itemVersionNumbers := stamps'
        metadata := match d.metadata with | some m => some m | none => s.metadata
        totalLength := totalLength'
        loadedDate := some (s.loadedDate.getD now)
        isFullyLoaded := fullyLoaded'
        fullyLoadedDate :=
          if fullyLoaded' && s.fullyLoadedDate.isNone then some now else s.fullyLoadedDate
        pagePromises := jsSetOpt s.pagePromises f.pageIndex none
        loadingPageCount := count'
        isLoading := decide (count' ≠ 0)
        isReloading := if decide (count' ≠ 0) then s.isReloading else false }
  else s

/-- The failure continuation of a page fetch (the `action` passed to
`pagePromise.catch(...)`): adjusts the loading counters only when the
captured version is still current, then records the error. -/
def pageLoadFail (s : PState α) (f : PageFetch) (e : Nat) : PState α :=
  let s1 :=
    if f.capturedVersion = s.versionNumber then
      let count' := s.loadingPageCount - 1
      { s with
          loadingPageCount := count'
          isLoading := decide (count' ≠ 0)
          isReloading := if decide (count' ≠ 0) then s.isReloading else false }
    else s
  { s1 with error := some e }

/-- `PaginatedObservableList.reset`: `BaseObservableList.reset` (replace
with `[]` in during-reset mode, which leaves `totalLength` alone, and
clear flags/dates/error) plus clearing the stamp array and
`cancelPendingPageLoads` (new `pageLoadContext`, cleared
`loadingPageVersionNumbers`, zeroed `loadingPageCount`).  Note that
`pagePromises` is not cleared. -/
def PState.reset (s : PState α) : PState α :=
  { s with
      items := []
      isFullyLoaded := false
      loadedDate := none
      fullyLoadedDate := none
      error := none
      itemVersionNumbers := []
      contextGen := s.contextGen + 1
      loadingPageVersionNumbers := []
      loadingPageCount := 0 }

/-- Item-staleness test of `getItemAtIndex`: the slot needs a (re)load when
it is beyond either array, its stamp is falsy (`undefined` or `0`), or the
stamp is older than the current version. -/
def itemStale (s : PState α) (i : Nat) : Bool :=
  decide (s.items.length ≤ i) || decide (s.itemVersionNumbers.length ≤ i) ||
    (match jsGet s.itemVersionNumbers i with
     | none => true
     | some v => decide (v = 0) || decide (v < s.versionNumber))

/-- `PaginatedObservableList.getItemAtIndex`: trigger a page load when the
slot is stale, then return `this[itemIndex]` (whatever the slot currently
holds — `undefined` when empty). -/
def getItemAtIndex (s : PState α) (itemIndex : Nat) : PState α × Option α :=
  let s' :=
    if itemStale s itemIndex then (loadPageAtIndex s (itemIndex / s.pageSize)).1 else s
  (s', jsGet s'.items itemIndex)

/-- Per-slot presence-and-freshness test of the `getPageAtIndex` loop:
`!this[index] || !stamps[index] || stamps[index] < versionNumber` makes
the loop bail out into `loadPageAtIndex`.  Items are entity objects, so
an occupied slot is truthy. -/
def slotOk (s : PState α) (i : Nat) : Bool :=
  (jsGet s.items i).isSome &&
    (match jsGet s.itemVersionNumbers i with
     | none => false
     | some v => !decide (v = 0) && decide (s.versionNumber ≤ v))

/-- What `getPageAtIndex` returned. -/
inductive GetPageResult (α : Type) where
  | resolved : List α → GetPageResult α
  | load : LoadPageResult → GetPageResult α
  deriving Repr, DecidableEq

/-- `PaginatedObservableList.getPageAtIndex`: serve the page from the
backing sequence when every slot in range is present and timely, else
delegate to `loadPageAtIndex`. -/
def getPageAtIndex (s : PState α) (pageIndex : Nat) : PState α × GetPageResult α :=
  let startIndex := pageIndex * s.pageSize
  let endIndex :=
    if s.totalLength ≠ -1 then min (startIndex + s.pageSize) s.totalLength.toNat
    else startIndex + s.pageSize
  if s.items.length < endIndex ∨ s.itemVersionNumbers.length < endIndex then
    let r := loadPageAtIndex s pageIndex
    (r.1, .load r.2)
  else if (List.range' startIndex (endIndex - startIndex)).all (fun i => slotOk s i) then
    (s, .resolved ((List.range' startIndex (endIndex - startIndex)).filterMap
      (fun i => jsGet s.items i)))
  else
    let r := loadPageAtIndex s pageIndex
    (r.1, .load r.2)

/-- `PaginatedObservableList.reload`: optional `reset` on `clear`, bump the
version counter, mark reloading, and kick `getPageAtIndex 0` on
`preload`. -/
def PState.reload (s : PState α) (clear preload : Bool) : PState α :=
  let s1 := if clear then s.reset else s
  let s2 := { s1 with versionNumber := s1.versionNumber + 1, isReloading := true }
  if preload then (getPageAtIndex s2 0).1 else s2

/-- `PaginatedObservableList.getNextPage`: resolve with an empty list when
fully loaded, else request the page containing index `length + 1`. -/
def getNextPage (s : PState α) : PState α × GetPageResult α :=
  if s.isFullyLoaded then (s, .resolved [])
  else getPageAtIndex s ((s.items.length + 1) / s.pageSize)

/-! ## `ObservableList` (non-paginated) -/

/-- Observable state of an `ObservableList<α>`. -/
structure SState (α : Type) where
  items : List α
  isLoading : Bool
  isReloading : Bool
  isFullyLoaded : Bool
  loadedDate : Option Nat
  fullyLoadedDate : Option Nat
  totalLength : Int
  metadata : Option Int
  error : Option Nat
  deriving Repr, DecidableEq

/-- `BaseObservableList.reset`: empty the contents in during-reset mode
(which leaves `totalLength` alone) and clear flags, dates and error. -/
def SState.reset (s : SState α) : SState α :=
  { s with
      items := []
      isFullyLoaded := false
      loadedDate := none
      fullyLoadedDate := none
      error := none }

/-- The success continuation of `ObservableList.load` (the `action` inside
`listPromise.then(...)`), applied when the provider resolves with `d` at
time `now`.  Field order follows the source: `replace` sets
`totalLength := d.items.length`, `attachMetadata` may overwrite it from
the response, and the trailing `this.totalLength = this.length`
overwrites it again with the contents' length. -/
def sLoadSucceed (s : SState α) (d : Payload α) (now : Nat) : SState α :=
  { s with
      isLoading := false
      isReloading := false
      items := d.items
      metadata := match d.metadata with | some m => some m | none => s.metadata
      isFullyLoaded := true
      loadedDate := some now
      fullyLoadedDate := some now
      totalLength := (d.items.length : Int) }

/-- The failure continuation of `ObservableList.load` (the `action` inside
`loadingPromise.catch(...)`): `reset()`, clear the loading flags, record
the error. -/
def sLoadFail (s : SState α) (e : Nat) : SState α :=
  { s.reset with isLoading := false, isReloading := false, error := some e }

/-- What the synchronous part of `ObservableList.reload` did. -/
inductive SReloadResult where
  | existingPromise : SReloadResult
  | newLoad : SReloadResult
  deriving Repr, DecidableEq

/-- The synchronous part of `ObservableList.reload`: optional clearing
`reset`, dedup on `isLoading`, else start a fresh provider load (whose
completion is `sLoadSucceed`/`sLoadFail`). -/
def SState.reload (s : SState α) (clear : Bool) : SState α × SReloadResult :=
  let s1 := if clear then s.reset else s
  if s1.isLoading then (s1, .existingPromise)
  else ({ s1 with isLoading := true, isReloading := true }, .newLoad)

/-! ## `AjaxRepository.cacheItem` — the identity cache

Entities are mutable JS objects; object identity is made explicit with a
heap: an object is an address (`Nat`) into a list of field maps.  Field
values and ids are opaque tokens (`Nat`), with `0` playing the role of a
JS-falsy (missing/empty) id. -/

/-- The fields of one JS object: field name to value, first binding wins
on lookup (real JS objects bind each name once). -/
abbrev Fields := List (String × Nat)

/-- JS property read `obj[k]`. -/
def fieldGet (f : Fields) (k : String) : Option Nat :=
  (f.find? (fun p => p.1 == k)).map (fun p => p.2)

/-- JS property write `obj[k] = v`: update the (unique) existing binding in
place, else append a new one. -/
def fieldSet (f : Fields) (k : String) (v : Nat) : Fields :=
  match f with
  | [] => [(k, v)]
  | p :: rest => if p.1 = k then (k, v) :: rest else p :: fieldSet rest k v

/-- `Object.assign(target, source)`: write every field of `source` onto
`target`, in order (shallow, last write wins). -/
def objAssign (target source : Fields) : Fields :=
  source.foldl (fun t p => fieldSet t p.1 p.2) target

/-- Heap of JS objects, addressed by position. -/
abbrev Heap := List Fields

def heapGet (h : Heap) (a : Nat) : Fields := h.getD a []

def heapSet (h : Heap) (a : Nat) (f : Fields) : Heap := h.set a f

/-- The repository state `cacheItem` touches: the object heap and
`modelObjectCache` (id value to object address), plus the repository's
`idKey` (defaults to `"id"`). -/
structure CacheState where
  heap : Heap
  modelObjectCache : List (Nat × Nat)
  idKey : String := "id"
  deriving Repr, DecidableEq

/-- `modelObjectCache[itemId]` lookup. -/
def cacheLookup (c : List (Nat × Nat)) (id : Nat) : Option Nat :=
  (c.find? (fun p => p.1 == id)).map (fun p => p.2)

/-- `AjaxRepository.cacheItem` (the spec's `reconcile`): pass through items
without an id; merge an already-cached id's fields into the canonical
instance in place with `Object.assign` and return that instance; register
a first-seen id as canonical. -/
def cacheItem (s : CacheState) (item : Nat) : CacheState × Nat :=
  let itemId := (fieldGet (heapGet s.heap item) s.idKey).getD 0
  if itemId = 0 then (s, item)
  else
    match cacheLookup s.modelObjectCache itemId with
    | some cachedItem =>
        ({ s with
            heap := heapSet s.heap cachedItem
              (objAssign (heapGet s.heap cachedItem) (heapGet s.heap item)) },
          cachedItem)
    | none =>
        ({ s with modelObjectCache := s.modelObjectCache ++ [(itemId, item)] }, item)

/-! ## `AjaxRepository.getById` — request coalescing

Canonical instances carry `Model`'s `_isLoading` flag and `_promise`
handle (modelled as `loadingFlag` / `promiseHandle`; a leading underscore
field name is avoided).  Ids are opaque tokens with `0` standing for a
falsy (absent) id. -/

structure GItem where
  fullyLoaded : Bool
  loadingFlag : Bool
  promiseHandle : Option Nat
  deriving Repr, DecidableEq

structure GetByIdState where
  cache : List (Nat × GItem)
  fetchCount : Nat
  nextPromiseId : Nat
  deriving Repr, DecidableEq

def gLookup (c : List (Nat × GItem)) (id : Nat) : Option GItem :=
  (c.find? (fun p => p.1 == id)).map (fun p => p.2)

def gUpdate (c : List (Nat × GItem)) (id : Nat) (it : GItem) : List (Nat × GItem) :=
  c.map (fun p => if p.1 == id then (id, it) else p)

/-- What the synchronous part of `getById` returned. -/
inductive GetByIdResult where
  | errorNoId : GetByIdResult
  | existingPromise : Option Nat → GetByIdResult
  | resolvedCached : GetByIdResult
  | newFetch : Nat → GetByIdResult
  deriving Repr, DecidableEq

/-- The synchronous part of `AjaxRepository.getById(id, reload)`: throw on
a falsy id; return the cached instance's in-flight `_promise` when its
`_isLoading` is set; short-circuit a fully-loaded instance unless
reloading; otherwise issue the request, mark the cached instance (if any)
as loading with the new promise, and return the cached instance for a
non-`reload` call or the promise otherwise. -/
def getById (s : GetByIdState) (id : Nat) (reload : Bool) : GetByIdState × GetByIdResult :=
  if id = 0 then (s, .errorNoId)
  else
    match gLookup s.cache id with
    | some c =>
        if c.loadingFlag then (s, .existingPromise c.promiseHandle)
        else if c.fullyLoaded && !reload then (s, .resolvedCached)
        else
          let pid := s.nextPromiseId
          let s1 : GetByIdState :=
            { cache := gUpdate s.cache id { c with promiseHandle := some pid, loadingFlag := true }
              fetchCount := s.fetchCount + 1
              nextPromiseId := pid + 1 }
          if !reload then (s1, .resolvedCached) else (s1, .newFetch pid)
    | none =>
        let pid := s.nextPromiseId
        ({ s with fetchCount := s.fetchCount + 1, nextPromiseId := pid + 1 }, .newFetch pid)

/-- Completion of a `getById` fetch.  The flag-clearing callback is the
final `.then` of the promise chain, so it runs only when the chain
resolved (a 404 resolves the chain with `undefined`); a rejected chain
skips it, leaving `_isLoading` and `_promise` untouched. -/
def getByIdComplete (s : GetByIdState) (id : Nat) (outcome : Except Nat Unit) : GetByIdState :=
  match outcome with
  | .error _ => s
  | .ok _ =>
      match gLookup s.cache id with
      | some c => { s with cache := gUpdate s.cache id { c with loadingFlag := false } }
      | none => s

/-! ## `getPaginatedObservableListFromArray` -/

/-- The provider closure built by `getPaginatedObservableListFromArray`:
`sourceArray.slice(pageIndex * pageSize, pageSize)` (the second `slice`
argument is an end index, not a count). -/
def arrayProviderResult (sourceArray : List α) (pageSize pageIndex : Nat) : List α :=
  jsSlice sourceArray (pageIndex * pageSize) pageSize

/-! ## Concrete execution scenarios

Small runs of the embedded operations, used below to test the spec's
claims on explicit reachable states (`pageSize = 2` throughout). -/

/-- State right after a fresh `PaginatedObservableList` issued its first
load of page 0 (via any of the read paths). -/
def pexAfterLoad0 : PState Nat := (loadPageAtIndex (PState.init Nat 2) 0).1

/-- The closure environment captured by that first page-0 fetch. -/
def pexFetch0 : PageFetch := ⟨0, 1, 0, 0⟩

/-- ... after a non-clearing `reload` ran while that fetch was in flight. -/
def pexReloaded : PState Nat := PState.reload pexAfterLoad0 false false

/-- ... after the (now version-stale) page-0 response `[10, 20]` arrived. -/
def pexStaleApplied : PState Nat := pageLoadSucceed pexReloaded pexFetch0 ⟨[10, 20], none, none⟩ 100

/-- ... or after a clearing `reload` (which cancels the pending page
loads by swapping the `pageLoadContext`) ran while the fetch was in
flight. -/
def pexCleared : PState Nat := PState.reload pexAfterLoad0 true false

/-- Fresh list whose first page-0 fetch resolved with `[10, 20]` and no
`totalLength` attribute. -/
def pexLoadedNoTotal : PState Nat := pageLoadSucceed pexAfterLoad0 pexFetch0 ⟨[10, 20], none, none⟩ 50

/-- Fresh list whose first page-0 fetch failed with error `5`. -/
def pexFailed : PState Nat := pageLoadFail pexAfterLoad0 pexFetch0 5

/-- `ObservableList` whose initial load failed with error `7`. -/
def sexFailed : SState Nat :=
  sLoadFail ⟨[], true, false, false, none, none, -1, none, none⟩ 7

/-- ... then reloaded (non-clearing); the new provider call is in flight. -/
def sexReloading : SState Nat := (SState.reload sexFailed false).1

/-- ... and that reload resolved with `[5]` carrying `totalLength = 9`. -/
def sexReloadDone : SState Nat := sLoadSucceed sexReloading ⟨[5], none, some 9⟩ 3

/-- Repository heap holding the two candidate objects of the spec's
reconcile scenario: object 0 is `{id: 1, a: 1}`, object 1 is
`{id: 1, a: 2}` (ids are opaque tokens). -/
def rexHeap : Heap := [[("id", 1), ("a", 1)], [("id", 1), ("a", 2)]]

/-- Repository state after `cacheItem({id: 1, a: 1})` registered object 0
as the canonical instance for id `1`. -/
def rexAfterFirst : CacheState := (cacheItem ⟨rexHeap, [], "id"⟩ 0).1

/-- `getById` state with one cached, not-fully-loaded, idle instance for
id `1`. -/
def gexIdle : GetByIdState := ⟨[(1, ⟨false, false, none⟩)], 0, 0⟩

/-- ... after `getById(1, reload := true)` put a fetch in flight. -/
def gexLoading : GetByIdState := (getById gexIdle 1 true).1

/-! ## Lemmas about the JS array primitives -/

theorem jsGet_eq_getElem? (l : List (Option α)) (i : Nat) :
    jsGet l i = (l[i]?).getD none := by
  simp [jsGet, List.getD_eq_getElem?_getD]

theorem jsGet_jsSetOpt_self (l : List (Option α)) (i : Nat) (v : Option α) :
    jsGet (jsSetOpt l i v) i = v := by
  unfold jsSetOpt
  by_cases h : i < l.length
  · simp [h, jsGet_eq_getElem?, List.getElem?_set_self, h]
  · have hle : l.length ≤ i := Nat.le_of_not_lt h
    have hlen : (l ++ List.replicate (i - l.length) (none : Option α)).length = i := by
      simp [Nat.add_sub_cancel' hle]
    simp only [h, if_false, jsGet_eq_getElem?]
    have hcat := List.getElem?_concat_length (l ++ List.replicate (i - l.length) (none : Option α)) v
    rw [hlen] at hcat
    rw [hcat]
    rfl

theorem jsGet_jsSetOpt_ne (l : List (Option α)) {i j : Nat} (v : Option α) (h : i ≠ j) :
    jsGet (jsSetOpt l j v) i = jsGet l i := by
  unfold jsSetOpt
  by_cases hj : j < l.length
  · simp [hj, jsGet_eq_getElem?, List.getElem?_set_ne (Ne.symm h)]
  · have hle : l.length ≤ j := Nat.le_of_not_lt hj
    simp only [hj, if_false, jsGet_eq_getElem?]
    rcases Nat.lt_or_ge i l.length with hi | hi
    · have hi2 : i < (l ++ List.replicate (j - l.length) (none : Option α)).length := by
        simp
        omega
      rw [List.getElem?_append, if_pos hi2, List.getElem?_append, if_pos hi]
    · have h1 : l[i]? = none := List.getElem?_eq_none hi
      rw [h1, List.getElem?_append]
      by_cases hi2 : i < (l ++ List.replicate (j - l.length) (none : Option α)).length
      · rw [if_pos hi2, List.getElem?_append, if_neg (Nat.not_lt.mpr hi)]
        have hlt : i - l.length < j - l.length := by
          simp at hi2
          omega
        simp [List.getElem?_replicate, hlt]
      · rw [if_neg hi2]
        simp only [List.length_append, List.length_replicate] at hi2 ⊢
        have hout : ([v] : List (Option α)).length ≤ i - (l.length + (j - l.length)) := by
          simp only [List.length_singleton]
          omega
        simp [List.getElem?_eq_none hout]

theorem length_jsSetOpt (l : List (Option α)) (i : Nat) (v : Option α) :
    (jsSetOpt l i v).length = max l.length (i + 1) := by
  unfold jsSetOpt
  by_cases h : i < l.length
  · simp [h, Nat.max_eq_left h]
  · have hle : l.length ≤ i := Nat.le_of_not_lt h
    simp [h, List.length_append]
    omega

theorem jsGet_jsSet_self (l : List (Option α)) (i : Nat) (v : α) :
    jsGet (jsSet l i v) i = some v :=
  jsGet_jsSetOpt_self l i (some v)

theorem jsGet_jsSet_ne (l : List (Option α)) {i j : Nat} (v : α) (h : i ≠ j) :
    jsGet (jsSet l j v) i = jsGet l i :=
  jsGet_jsSetOpt_ne l (some v) h

theorem jsGet_growTo (l : List (Option α)) (n i : Nat) :
    jsGet (growTo l n) i = jsGet l i := by
  unfold growTo
  by_cases h : l.length < n
  · simp only [h, if_true, jsGet_eq_getElem?, List.getElem?_append]
    by_cases hi : i < l.length
    · rw [if_pos hi]
    · rw [if_neg hi]
      have h1 : l[i]? = none := List.getElem?_eq_none (Nat.le_of_not_lt hi)
      rw [h1]
      by_cases h2 : i - l.length < n - l.length
      · simp [List.getElem?_replicate, h2]
      · simp [List.getElem?_eq_none (show (List.replicate (n - l.length) (none : Option α)).length
          ≤ i - l.length by simp; omega)]
  · rw [if_neg h]

/-- Writes at positions below `start` are untouched by `writePage`. -/
theorem jsGet_writePage_lt (data : List α) (l : List (Option α)) (start i : Nat)
    (h : i < start) : jsGet (writePage l start data) i = jsGet l i := by
  induction data generalizing l start with
  | nil => rfl
  | cons d rest ih =>
      rw [writePage, ih (jsSet l start d) (start + 1) (Nat.lt_succ_of_lt h),
        jsGet_jsSet_ne l d (Nat.ne_of_lt h)]

/-- `writePage` stores `data[k]` at position `start + k`. -/
theorem jsGet_writePage (data : List α) (l : List (Option α)) (start k : Nat)
    (h : k < data.length) : jsGet (writePage l start data) (start + k) = data[k]? := by
  induction data generalizing l start k with
  | nil => exact absurd h (by simp)
  | cons d rest ih =>
      rw [writePage]
      match k with
      | 0 =>
          simp only [Nat.add_zero]
          rw [jsGet_writePage_lt rest (jsSet l start d) (start + 1) start
            (Nat.lt_succ_self start), jsGet_jsSet_self]
          simp
      | Nat.succ m =>
          have hm : m < rest.length := by
            simpa [Nat.succ_lt_succ_iff] using h
          have heq : start + (m + 1) = (start + 1) + m := by omega
          rw [heq, ih (jsSet l start d) (start + 1) m hm]
          simp

theorem jsSlice_zero (l : List α) (stop : Nat) : jsSlice l 0 stop = l.take stop := by
  simp [jsSlice]

theorem jsSlice_eq_nil (l : List α) {start stop : Nat} (h : stop ≤ start) :
    jsSlice l start stop = [] := by
  unfold jsSlice
  exact List.drop_eq_nil_of_le (Nat.le_trans (List.length_take_le stop l) h)

/-! ## Lemmas about JS object field maps -/

theorem fieldGet_nil (k : String) : fieldGet [] k = none := rfl

theorem fieldGet_cons (p : String × Nat) (rest : Fields) (k : String) :
    fieldGet (p :: rest) k = if p.1 = k then some p.2 else fieldGet rest k := by
  unfold fieldGet
  by_cases h : p.1 = k
  · rw [List.find?_cons_of_pos _ (by simpa using h)]
    simp [h]
  · rw [List.find?_cons_of_neg _ (by simpa using h)]
    simp [h]

theorem fieldGet_fieldSet (t : Fields) (k k' : String) (v : Nat) :
    fieldGet (fieldSet t k v) k' = if k' = k then some v else fieldGet t k' := by
  induction t with
  | nil =>
      show fieldGet [(k, v)] k' = if k' = k then some v else fieldGet [] k'
      rw [fieldGet_cons, fieldGet_nil]
      by_cases h : k' = k
      · rw [if_pos h.symm, if_pos h]
      · rw [if_neg (fun hc => h hc.symm), if_neg h]
  | cons p rest ih =>
      simp only [fieldSet]
      by_cases hp : p.1 = k
      · rw [if_pos hp, fieldGet_cons, fieldGet_cons]
        by_cases h : k' = k
        · rw [if_pos (show (k, v).1 = k' from h.symm), if_pos h]
        · rw [if_neg (show ¬ (k, v).1 = k' from fun hc => h hc.symm), if_neg h,
            if_neg (show ¬ p.1 = k' from fun hc => h (hc.symm.trans hp))]
      · rw [if_neg hp, fieldGet_cons, ih, fieldGet_cons]
        by_cases hq : p.1 = k'
        · have hk : ¬ k' = k := fun hc => hp (hq.trans hc)
          rw [if_pos hq, if_neg hk, if_pos hq]
        · rw [if_neg hq]
          by_cases h : k' = k
          · rw [if_pos h, if_pos h]
          · rw [if_neg h, if_neg h, if_neg hq]

theorem fieldGet_objAssign (t src : Fields) (k : String)
    (hnd : (src.map Prod.fst).Nodup) :
    fieldGet (objAssign t src) k =
      match fieldGet src k with
      | some v => some v
      | none => fieldGet t k := by
  induction src generalizing t with
  | nil => simp [objAssign, fieldGet_nil]
  | cons p rest ih =>
      have hnd2 := List.nodup_cons.mp (show (p.1 :: rest.map Prod.fst).Nodup by
        simpa only [List.map_cons] using hnd)
      rw [show objAssign t (p :: rest) = objAssign (fieldSet t p.1 p.2) rest from rfl,
        ih (fieldSet t p.1 p.2) hnd2.2, fieldGet_cons]
      by_cases h : p.1 = k
      · have hrest : fieldGet rest k = none := by
          unfold fieldGet
          rw [List.find?_eq_none.mpr]
          · rfl
          · intro x hx hbeq
            exact hnd2.1 (h ▸ (show x.1 = k by simpa using hbeq) ▸
              List.mem_map_of_mem Prod.fst hx)
        rw [hrest, if_pos h, fieldGet_fieldSet, if_pos h.symm]
      · rw [if_neg h, fieldGet_fieldSet, if_neg (fun hc => h hc.symm)]

theorem heapGet_heapSet_self (h : Heap) (a : Nat) (f : Fields) (ha : a < h.length) :
    heapGet (heapSet h a f) a = f := by
  unfold heapGet heapSet
  rw [List.getD_eq_getElem?_getD, List.getElem?_set_self ha]
  rfl

theorem gLookup_gUpdate_self (c : List (Nat × GItem)) (id : Nat) (old it : GItem)
    (h : gLookup c id = some old) : gLookup (gUpdate c id it) id = some it := by
  induction c with
  | nil => simp [gLookup] at h
  | cons p rest ih =>
      unfold gUpdate
      simp only [List.map_cons]
      by_cases hp : p.1 = id
      · rw [if_pos (show (p.1 == id) = true by simpa using hp)]
        unfold gLookup
        rw [List.find?_cons_of_pos _ (by simp)]
        rfl
      · rw [if_neg (show ¬ (p.1 == id) = true by simpa using hp)]
        unfold gLookup at h ⊢
        rw [List.find?_cons_of_neg _ (by simpa using hp)] at h
        rw [List.find?_cons_of_neg _ (by simpa using hp)]
        exact ih h

/-! ## Claim C10 -/

/-- C10: the provider built by `getPaginatedObservableListFromArray`
resolves page 0 with `sourceArray.slice(0, pageSize)` but, because the
second argument of `slice` is an end index rather than a count, every
page index `≥ 1` resolves with the empty list, so no item beyond the
first page is ever served. -/
theorem arrayProvider_first_page_only (sourceArray : List Nat) (pageSize pageIndex : Nat)
    (hps : 1 ≤ pageSize) :
    arrayProviderResult sourceArray pageSize 0 = sourceArray.take pageSize ∧
    (1 ≤ pageIndex → arrayProviderResult sourceArray pageSize pageIndex = []) := by
  constructor
  · rw [arrayProviderResult, Nat.zero_mul, jsSlice_zero]
  · intro hpi
    exact jsSlice_eq_nil sourceArray
      (by calc pageSize = 1 * pageSize := (Nat.one_mul pageSize).symm
        _ ≤ pageIndex * pageSize := Nat.mul_le_mul_right pageSize hpi)

/-- C10 witness: the provider over `[1, 2, 3]` with `pageSize = 2` serves
`[1, 2]` as page 0 and nothing as page 1. -/
theorem arrayProvider_first_page_only_witness :
    1 ≤ 2 ∧ arrayProviderResult [1, 2, 3] 2 0 = [1, 2] ∧
      arrayProviderResult [1, 2, 3] 2 1 = [] := by
  refine ⟨by decide, ?_, (arrayProvider_first_page_only [1, 2, 3] 2 1 (by decide)).2 (by decide)⟩
  rw [(arrayProvider_first_page_only [1, 2, 3] 2 1 (by decide)).1]
  decide

/-! ## Claim C6 -/

/-- C6 (counterexample): a first load of an `ObservableList` fails with
error `7`; a non-clearing `reload` then succeeds with a response `[5]`
carrying `totalLength = 9`.  At completion the error field still holds
the old error (it is not cleared) and `totalLength` is `1` (the contents'
length), not the `9` the response carried. -/
theorem reload_success_keeps_error_cex :
    (SState.reload sexFailed false).2 = SReloadResult.newLoad ∧
    sexReloadDone.error = some 7 ∧
    sexReloadDone.totalLength = 1 := by
  decide

/-- C6 (amended): on a successful `ObservableList` load, the contents are
replaced by the response, `metadata` is copied when the response carries
it, `loadedDate` is set, and the loading flags drop — but `totalLength`
ends up as the contents' length (the trailing `this.totalLength =
this.length` overwrites any `totalLength` the response carried), and the
`error` field is left exactly as it was, not cleared. -/
theorem sLoadSucceed_replaces_and_keeps_error (s : SState Nat) (d : Payload Nat) (now : Nat) :
    (sLoadSucceed s d now).items = d.items ∧
    (sLoadSucceed s d now).metadata =
      (match d.metadata with | some m => some m | none => s.metadata) ∧
    (sLoadSucceed s d now).totalLength = (d.items.length : Int) ∧
    (sLoadSucceed s d now).loadedDate = some now ∧
    (sLoadSucceed s d now).isLoading = false ∧
    (sLoadSucceed s d now).isReloading = false ∧
    (sLoadSucceed s d now).isFullyLoaded = true ∧
    (sLoadSucceed s d now).error = s.error := by
  unfold sLoadSucceed
  exact ⟨rfl, rfl, rfl, rfl, rfl, rfl, rfl, rfl⟩

/-! ## Claim C8 -/

/-- C8 (counterexample): a page fetch captured at version 1, completing
after a non-clearing reload bumped the live version to 2, fails with
error `5`.  The loading counters are indeed left untouched, but the error
is recorded anyway — the stale failure is not swallowed silently. -/
theorem stale_failure_sets_error_cex :
    pexFetch0.capturedVersion ≠ pexReloaded.versionNumber ∧
    (pageLoadFail pexReloaded pexFetch0 5).loadingPageCount = pexReloaded.loadingPageCount ∧
    pexReloaded.error = none ∧
    (pageLoadFail pexReloaded pexFetch0 5).error = some 5 := by
  decide

/-- C8 (amended): when a page fetch fails, the loading counters are
adjusted only if the captured version still equals the live version, and
a stale failure leaves the counters and flags untouched — but the error
is recorded unconditionally, stale or not. -/
theorem pageLoadFail_error_always_counters_gated (s : PState Nat) (f : PageFetch) (e : Nat) :
    (pageLoadFail s f e).error = some e ∧
    (f.capturedVersion = s.versionNumber →
      (pageLoadFail s f e).loadingPageCount = s.loadingPageCount - 1 ∧
      (pageLoadFail s f e).isLoading = decide (s.loadingPageCount - 1 ≠ 0)) ∧
    (f.capturedVersion ≠ s.versionNumber →
      (pageLoadFail s f e).loadingPageCount = s.loadingPageCount ∧
      (pageLoadFail s f e).isLoading = s.isLoading ∧
      (pageLoadFail s f e).isReloading = s.isReloading) ∧
    (pageLoadFail s f e).items = s.items ∧
    (pageLoadFail s f e).itemVersionNumbers = s.itemVersionNumbers := by
  unfold pageLoadFail
  by_cases h : f.capturedVersion = s.versionNumber
  · rw [if_pos h]
    exact ⟨rfl, fun _ => ⟨rfl, rfl⟩, fun hc => absurd h hc, rfl, rfl⟩
  · rw [if_neg h]
    exact ⟨rfl, fun hc => absurd hc h, fun _ => ⟨rfl, rfl, rfl⟩, rfl, rfl⟩

/-! ## Claim C3 -/

/-- C3: for an item whose id is present and already cached, `cacheItem`
returns the address of the previously-cached object itself — never a new
object — with the candidate's fields shallowly merged into it
last-write-wins (field present on the candidate wins, otherwise the
canonical instance's old value survives), leaving the id-to-object map
unchanged; and an item without an id is returned as-is and never
cached. -/
theorem cacheItem_merges_into_canonical (s : CacheState) (item a : Nat)
    (hid : (fieldGet (heapGet s.heap item) s.idKey).getD 0 ≠ 0)
    (hc : cacheLookup s.modelObjectCache
      ((fieldGet (heapGet s.heap item) s.idKey).getD 0) = some a)
    (ha : a < s.heap.length)
    (hnd : ((heapGet s.heap item).map Prod.fst).Nodup) :
    (cacheItem s item).2 = a ∧
    (∀ k, fieldGet (heapGet (cacheItem s item).1.heap a) k =
      match fieldGet (heapGet s.heap item) k with
      | some v => some v
      | none => fieldGet (heapGet s.heap a) k) ∧
    (cacheItem s item).1.modelObjectCache = s.modelObjectCache ∧
    (∀ item2, (fieldGet (heapGet s.heap item2) s.idKey).getD 0 = 0 →
      cacheItem s item2 = (s, item2)) := by
  refine ⟨?_, ?_, ?_, ?_⟩
  · unfold cacheItem
    rw [if_neg hid, hc]
  · intro k
    unfold cacheItem
    rw [if_neg hid, hc]
    show fieldGet (heapGet (heapSet s.heap a _) a) k = _
    rw [heapGet_heapSet_self s.heap a _ ha, fieldGet_objAssign _ _ k hnd]
  · unfold cacheItem
    rw [if_neg hid, hc]
  · intro item2 h2
    unfold cacheItem
    rw [if_pos h2]

/-- C3 witness: the spec's scenario — reconciling `{id: 1, a: 1}` and then
`{id: 1, a: 2}` returns the same object (address 0) both times, and the
canonical object's field `a` ends at `2`. -/
theorem cacheItem_merges_into_canonical_witness :
    (cacheItem ⟨rexHeap, [], "id"⟩ 0).2 = 0 ∧
    (cacheItem rexAfterFirst 1).2 = 0 ∧
    fieldGet (heapGet (cacheItem rexAfterFirst 1).1.heap 0) "a" = some 2 := by
  refine ⟨by decide,
    (cacheItem_merges_into_canonical rexAfterFirst 1 0
      (by decide) (by decide) (by decide) (by decide)).1, ?_⟩
  rw [(cacheItem_merges_into_canonical rexAfterFirst 1 0
    (by decide) (by decide) (by decide) (by decide)).2.1 "a"]
  decide

/-! ## Claim C9 -/

/-- C9 (counterexample): a cached instance's fetch put in flight by
`getById(1, reload)` fails (the promise chain rejects); no handler of the
chain clears the `_isLoading` flag, so — contrary to the claim that the
handle is cleared regardless of success or failure — the instance is left
marked loading, and every later `getById` returns the stale rejected
handle instead of fetching. -/
theorem getById_failure_leaves_flag_cex :
    (getById gexIdle 1 true).2 = GetByIdResult.newFetch 0 ∧
    getByIdComplete gexLoading 1 (Except.error 5) = gexLoading ∧
    (gLookup gexLoading.cache 1).map GItem.loadingFlag = some true ∧
    (getById gexLoading 1 false).2 = GetByIdResult.existingPromise (some 0) := by
  decide

/-- C9 (amended): when the cached canonical instance for an id carries an
in-flight fetch (`_isLoading` set), `getById` returns its existing
`_promise` handle without touching state (no duplicate request); on a
successful completion (including a 404 resolved as `undefined`) the flag
is cleared on the canonical instance — but a failed completion runs no
handler and leaves the flag (and handle) set. -/
theorem getById_flag_cleared_on_success_only (s : GetByIdState) (id : Nat) (r : Bool)
    (c : GItem) (hid : id ≠ 0) (hc : gLookup s.cache id = some c) :
    (c.loadingFlag = true →
      getById s id r = (s, GetByIdResult.existingPromise c.promiseHandle)) ∧
    gLookup (getByIdComplete s id (Except.ok ())).cache id
      = some { c with loadingFlag := false } ∧
    (∀ e, getByIdComplete s id (Except.error e) = s) := by
  refine ⟨?_, ?_, fun e => rfl⟩
  · intro hl
    unfold getById
    rw [if_neg hid, hc]
    show (if c.loadingFlag then _ else _) = _
    rw [if_pos hl]
  · show gLookup (match gLookup s.cache id with
      | some c => { s with cache := gUpdate s.cache id { c with loadingFlag := false } }
      | none => s).cache id = _
    rw [hc]
    exact gLookup_gUpdate_self s.cache id c _ hc

/-- C9 witness: the amended statement applied to the concrete in-flight
instance — the pending handle is returned, a successful completion clears
the flag, a failed one changes nothing. -/
theorem getById_flag_cleared_on_success_only_witness :
    getById gexLoading 1 false = (gexLoading, GetByIdResult.existingPromise (some 0)) ∧
    gLookup (getByIdComplete gexLoading 1 (Except.ok ())).cache 1 =
      some { fullyLoaded := false, loadingFlag := false, promiseHandle := some 0 } ∧
    getByIdComplete gexLoading 1 (Except.error 9) = gexLoading := by
  have h := getById_flag_cleared_on_success_only gexLoading 1 false
    ⟨false, true, some 0⟩ (by decide) (by decide)
  exact ⟨h.1 rfl, h.2.1, h.2.2 9⟩

/-- C8 witness: the amended statement applied to the concrete stale
failure above and to a current-version failure of a fresh fetch. -/
theorem pageLoadFail_error_always_counters_gated_witness :
    ((pageLoadFail pexReloaded pexFetch0 5).loadingPageCount = pexReloaded.loadingPageCount ∧
      (pageLoadFail pexReloaded pexFetch0 5).isLoading = pexReloaded.isLoading ∧
      (pageLoadFail pexReloaded pexFetch0 5).isReloading = pexReloaded.isReloading) ∧
    (pageLoadFail pexAfterLoad0 pexFetch0 5).loadingPageCount =
      pexAfterLoad0.loadingPageCount - 1 := by
  exact ⟨(pageLoadFail_error_always_counters_gated pexReloaded pexFetch0 5).2.2.1 (by decide),
    ((pageLoadFail_error_always_counters_gated pexAfterLoad0 pexFetch0 5).2.1 (by decide)).1⟩

/-! ## Lemmas about `loadPageAtIndex` and its continuations -/

/-- Re-entering `loadPageAtIndex` while the guard registers a fetch for
this page under the current version is a no-op returning the registered
promise. -/
theorem loadPage_noop_of_pending (s : PState Nat) (p : Nat)
    (hp : pageLoadPending s p = true) :
    loadPageAtIndex s p = (s, LoadPageResult.existing (jsGet s.pagePromises p)) := by
  unfold loadPageAtIndex
  rw [if_pos hp]

/-- Starting a fresh page fetch bumps the provider-invocation count. -/
theorem loadPage_started_fetchCount (s : PState Nat) (p : Nat)
    (hnp : pageLoadPending s p = false) :
    (loadPageAtIndex s p).1.fetchCount = s.fetchCount + 1 := by
  unfold loadPageAtIndex
  rw [if_neg (by simp [hnp])]

/-- The synchronous part of `loadPageAtIndex` never touches the backing
sequence, the stamps, the version, or the page size. -/
theorem loadPage_preserves (s : PState Nat) (p : Nat) :
    (loadPageAtIndex s p).1.items = s.items ∧
    (loadPageAtIndex s p).1.itemVersionNumbers = s.itemVersionNumbers ∧
    (loadPageAtIndex s p).1.versionNumber = s.versionNumber ∧
    (loadPageAtIndex s p).1.pageSize = s.pageSize := by
  unfold loadPageAtIndex
  by_cases h : pageLoadPending s p
  · rw [if_pos h]
    exact ⟨rfl, rfl, rfl, rfl⟩
  · rw [if_neg h]
    exact ⟨rfl, rfl, rfl, rfl⟩

/-- Staleness of an item slot is unaffected by the synchronous part of a
page-load trigger. -/
theorem itemStale_loadPage (s : PState Nat) (p j : Nat) :
    itemStale (loadPageAtIndex s p).1 j = itemStale s j := by
  unfold loadPageAtIndex
  by_cases h : pageLoadPending s p
  · rw [if_pos h]
  · rw [if_neg h]
    rfl

/-- After `loadPageAtIndex` starts a fetch for page `p`, the dedup guard
holds for `p` under the still-current version. -/
theorem pageLoadPending_after_start (s : PState Nat) (p : Nat)
    (hnp : pageLoadPending s p = false) :
    pageLoadPending (loadPageAtIndex s p).1 p = true := by
  unfold loadPageAtIndex
  rw [if_neg (by simp [hnp])]
  unfold pageLoadPending jsSet
  rw [jsGet_jsSetOpt_self, length_jsSetOpt]
  simp

/-- `pageLoadFail` never touches the sequence, stamps, guards, promises,
version, fetch count or page size. -/
theorem pageLoadFail_preserves (s : PState Nat) (f : PageFetch) (e : Nat) :
    (pageLoadFail s f e).items = s.items ∧
    (pageLoadFail s f e).itemVersionNumbers = s.itemVersionNumbers ∧
    (pageLoadFail s f e).loadingPageVersionNumbers = s.loadingPageVersionNumbers ∧
    (pageLoadFail s f e).pagePromises = s.pagePromises ∧
    (pageLoadFail s f e).versionNumber = s.versionNumber ∧
    (pageLoadFail s f e).fetchCount = s.fetchCount ∧
    (pageLoadFail s f e).pageSize = s.pageSize := by
  unfold pageLoadFail
  by_cases h : f.capturedVersion = s.versionNumber
  · rw [if_pos h]
    exact ⟨rfl, rfl, rfl, rfl, rfl, rfl, rfl⟩
  · rw [if_neg h]
    exact ⟨rfl, rfl, rfl, rfl, rfl, rfl, rfl⟩

/-- The dedup guard is unaffected by a page-load failure. -/
theorem pageLoadPending_pageLoadFail (s : PState Nat) (f : PageFetch) (e x : Nat) :
    pageLoadPending (pageLoadFail s f e) x = pageLoadPending s x := by
  unfold pageLoadPending
  rw [(pageLoadFail_preserves s f e).2.2.1, (pageLoadFail_preserves s f e).2.2.2.2.1]

/-! ## Claim C1 -/

/-- C1 (counterexample): a page-0 fetch is captured at version 1; a
non-clearing `reload({clear: false})` bumps the live version to 2 while
it is in flight; when the response `[10, 20]` then arrives, its captured
version is older than the live one — yet the payload is applied: the
previously empty slot 0 is written with item `10` and stamped with the
stale captured version 1.  The stale response is not dropped. -/
theorem stale_response_still_writes_cex :
    (loadPageAtIndex (PState.init Nat 2) 0).2 = LoadPageResult.started pexFetch0 ∧
    pexFetch0.capturedVersion < pexReloaded.versionNumber ∧
    jsGet pexReloaded.items 0 = none ∧
    jsGet pexStaleApplied.items 0 = some 10 ∧
    jsGet pexStaleApplied.itemVersionNumbers 0 = some 1 := by
  decide

/-- C1 (amended): a page response is dropped without mutating the backing
sequence precisely when its captured `pageLoadContext` has been cancelled
(by a clearing reload or a reset) — and then nothing at all changes, not
even the loading counters; a merely version-stale response (e.g. after
`reload({clear: false})`) is not dropped: its items are written into
their slots and stamped with the captured (old) version number. -/
theorem pageLoadSucceed_drop_iff_cancelled (s : PState Nat) (f : PageFetch)
    (d : Payload Nat) (now : Nat) :
    (f.capturedGen ≠ s.contextGen → pageLoadSucceed s f d now = s) ∧
    (f.capturedGen = s.contextGen → ∀ k, k < d.items.length →
      jsGet (pageLoadSucceed s f d now).items (s.pageSize * f.pageIndex + k) = d.items[k]? ∧
      jsGet (pageLoadSucceed s f d now).itemVersionNumbers (s.pageSize * f.pageIndex + k)
        = some f.capturedVersion) := by
  constructor
  · intro h
    unfold pageLoadSucceed
    rw [if_neg h]
  · intro h k hk
    unfold pageLoadSucceed
    rw [if_pos h]
    constructor
    · show jsGet (writePage (growTo s.items (s.pageSize * f.pageIndex))
        (s.pageSize * f.pageIndex) d.items) (s.pageSize * f.pageIndex + k) = d.items[k]?
      exact jsGet_writePage d.items _ _ k hk
    · show jsGet (writePage (growTo s.itemVersionNumbers (s.pageSize * f.pageIndex))
        (s.pageSize * f.pageIndex) (List.replicate d.items.length f.capturedVersion))
        (s.pageSize * f.pageIndex + k) = some f.capturedVersion
      rw [jsGet_writePage _ _ _ k (by simpa using hk)]
      simp [List.getElem?_replicate, hk]

/-- C1 witness: the amended statement at the concrete runs — the response
arriving after a clearing reload changes nothing, while the one arriving
after a non-clearing reload writes slot 1 with item `20`. -/
theorem pageLoadSucceed_drop_iff_cancelled_witness :
    pageLoadSucceed pexCleared pexFetch0 ⟨[10, 20], none, none⟩ 100 = pexCleared ∧
    jsGet (pageLoadSucceed pexReloaded pexFetch0 ⟨[10, 20], none, none⟩ 100).items
      (pexReloaded.pageSize * pexFetch0.pageIndex + 1) = some 20 := by
  refine ⟨(pageLoadSucceed_drop_iff_cancelled pexCleared pexFetch0
    ⟨[10, 20], none, none⟩ 100).1 (by decide), ?_⟩
  rw [((pageLoadSucceed_drop_iff_cancelled pexReloaded pexFetch0
    ⟨[10, 20], none, none⟩ 100).2 (by decide) 1 (by decide)).1]
  decide

/-! ## Claim C2 -/

/-- C2: per (pageIndex, live version) at most one fetch is in flight:
entering `loadPageAtIndex` while the guard registers a fetch for that
page under the current version returns the registered promise and leaves
the state untouched; and two `getItemAtIndex` calls landing in the same
uncached (stale, non-pending) page within the same tick produce exactly
one provider invocation. -/
theorem loadPage_dedup_single_fetch (s : PState Nat) (i j : Nat)
    (hi : itemStale s i = true) (hj : itemStale s j = true)
    (hpage : i / s.pageSize = j / s.pageSize)
    (hnp : pageLoadPending s (i / s.pageSize) = false) :
    (∀ p, pageLoadPending s p = true →
      loadPageAtIndex s p = (s, LoadPageResult.existing (jsGet s.pagePromises p))) ∧
    (getItemAtIndex (getItemAtIndex s i).1 j).1.fetchCount = s.fetchCount + 1 := by
  refine ⟨fun p hp => loadPage_noop_of_pending s p hp, ?_⟩
  have h1 : (getItemAtIndex s i).1 = (loadPageAtIndex s (i / s.pageSize)).1 := by
    show (if itemStale s i then (loadPageAtIndex s (i / s.pageSize)).1 else s) = _
    rw [if_pos hi]
  rw [h1]
  have hj1 : itemStale (loadPageAtIndex s (i / s.pageSize)).1 j = true := by
    rw [itemStale_loadPage]
    exact hj
  have h2 : (getItemAtIndex (loadPageAtIndex s (i / s.pageSize)).1 j).1
      = (loadPageAtIndex (loadPageAtIndex s (i / s.pageSize)).1
          (j / (loadPageAtIndex s (i / s.pageSize)).1.pageSize)).1 := by
    show (if itemStale (loadPageAtIndex s (i / s.pageSize)).1 j then _ else _) = _
    rw [if_pos hj1]
  rw [h2, (loadPage_preserves s (i / s.pageSize)).2.2.2, ← hpage]
  rw [show (loadPageAtIndex (loadPageAtIndex s (i / s.pageSize)).1 (i / s.pageSize)).1
      = (loadPageAtIndex s (i / s.pageSize)).1 by
    rw [loadPage_noop_of_pending _ _ (pageLoadPending_after_start s (i / s.pageSize) hnp)]]
  exact loadPage_started_fetchCount s (i / s.pageSize) hnp

/-- C2 witness: with page 0 already pending, the two reads at stale
indices 2 and 3 (page 1) cause exactly one new provider invocation, and a
read entering `loadPageAtIndex` for the pending page 0 gets back the
registered promise. -/
theorem loadPage_dedup_single_fetch_witness :
    loadPageAtIndex pexAfterLoad0 0
      = (pexAfterLoad0, LoadPageResult.existing (jsGet pexAfterLoad0.pagePromises 0)) ∧
    (getItemAtIndex (getItemAtIndex pexAfterLoad0 2).1 3).1.fetchCount
      = pexAfterLoad0.fetchCount + 1 := by
  have h := loadPage_dedup_single_fetch pexAfterLoad0 2 3
    (by decide) (by decide) (by decide) (by decide)
  exact ⟨h.1 0 (by decide), h.2⟩

/-! ## Claim C4 -/

/-- C4 (counterexample): after the page-0 fetch of a fresh list fails,
the version has not changed, yet re-accessing page 0 does not issue a
fresh provider request: the dedup guard (never cleared by the failure
handler) still registers the dead fetch, so `loadPageAtIndex` hands back
the old rejected page promise and the provider-invocation count stays at
1. -/
theorem failed_page_not_retried_cex :
    pexFailed.versionNumber = pexFetch0.capturedVersion ∧
    loadPageAtIndex pexFailed 0 = (pexFailed, LoadPageResult.existing (some 0)) ∧
    (loadPageAtIndex pexFailed 0).1.fetchCount = 1 := by
  decide

/-- C4 (amended): a page-load failure writes no item and no version stamp
and leaves other (non-registered) pages independently loadable — but
re-accessing the failed page under the same version returns the same dead
page promise without a fresh provider request; only once `reload` bumps
the version does the guard release the page. -/
theorem pageLoadFail_poisons_page_until_reload (s : PState Nat) (f : PageFetch) (e : Nat)
    (p q : Nat) (hp : pageLoadPending s p = true) (hq : pageLoadPending s q = false) :
    (pageLoadFail s f e).items = s.items ∧
    (pageLoadFail s f e).itemVersionNumbers = s.itemVersionNumbers ∧
    loadPageAtIndex (pageLoadFail s f e) p
      = (pageLoadFail s f e, LoadPageResult.existing (jsGet s.pagePromises p)) ∧
    (loadPageAtIndex (pageLoadFail s f e) q).1.fetchCount = s.fetchCount + 1 ∧
    pageLoadPending ((pageLoadFail s f e).reload false false) p = false := by
  refine ⟨(pageLoadFail_preserves s f e).1, (pageLoadFail_preserves s f e).2.1, ?_, ?_, ?_⟩
  · rw [loadPage_noop_of_pending _ p (by rw [pageLoadPending_pageLoadFail]; exact hp),
      (pageLoadFail_preserves s f e).2.2.2.1]
  · rw [loadPage_started_fetchCount _ q (by rw [pageLoadPending_pageLoadFail]; exact hq),
      (pageLoadFail_preserves s f e).2.2.2.2.2.1]
  · have hjs : jsGet s.loadingPageVersionNumbers p = some s.versionNumber := by
      have hp2 := hp
      unfold pageLoadPending at hp2
      simp only [Bool.and_eq_true] at hp2
      exact eq_of_beq hp2.2
    show pageLoadPending { pageLoadFail s f e with
      versionNumber := (pageLoadFail s f e).versionNumber + 1, isReloading := true } p = false
    unfold pageLoadPending
    show (_ && (jsGet (pageLoadFail s f e).loadingPageVersionNumbers p
      == some ((pageLoadFail s f e).versionNumber + 1))) = false
    rw [(pageLoadFail_preserves s f e).2.2.1, (pageLoadFail_preserves s f e).2.2.2.2.1, hjs]
    simp

/-- C4 witness: the amended statement at the concrete failed page-0 run,
with page 1 as the still-loadable other page. -/
theorem pageLoadFail_poisons_page_until_reload_witness :
    loadPageAtIndex pexFailed 0
      = (pexFailed, LoadPageResult.existing (jsGet pexAfterLoad0.pagePromises 0)) ∧
    (loadPageAtIndex pexFailed 1).1.fetchCount = pexAfterLoad0.fetchCount + 1 ∧
    pageLoadPending (pexFailed.reload false false) 0 = false := by
  have h := pageLoadFail_poisons_page_until_reload pexAfterLoad0 pexFetch0 5 0 1
    (by decide) (by decide)
  exact ⟨h.2.2.1, h.2.2.2.1, h.2.2.2.2⟩

/-! ## Claim C5 -/

/-- C5 (counterexample): after a non-clearing reload, slot 0 holds a
stale-stamped value `10`; `getItemAtIndex 0` finds the slot stale (so it
triggers a page load) but returns the stored stale value `10`, not the
empty-slot sentinel `undefined`. -/
theorem getItemAtIndex_stale_value_cex :
    itemStale pexStaleApplied 0 = true ∧
    (getItemAtIndex pexStaleApplied 0).2 = some 10 := by
  decide

/-- C5 (amended): if the slot at `i` is within both arrays with a truthy
stamp at least the current version, `getItemAtIndex` returns the stored
slot content synchronously without triggering a load; otherwise it
triggers a load of page `⌊i / pageSize⌋` and still returns the current
slot content — which is the `undefined` sentinel only when the slot is
actually empty, and a stale stored value otherwise. -/
theorem getItemAtIndex_fresh_or_load (s : PState Nat) (i : Nat) :
    (itemStale s i = false → getItemAtIndex s i = (s, jsGet s.items i)) ∧
    (itemStale s i = true →
      getItemAtIndex s i = ((loadPageAtIndex s (i / s.pageSize)).1, jsGet s.items i)) := by
  constructor
  · intro h
    show ((if itemStale s i then (loadPageAtIndex s (i / s.pageSize)).1 else s),
      jsGet (if itemStale s i then (loadPageAtIndex s (i / s.pageSize)).1 else s).items i) = _
    rw [if_neg (by simp [h])]
  · intro h
    show ((if itemStale s i then (loadPageAtIndex s (i / s.pageSize)).1 else s),
      jsGet (if itemStale s i then (loadPageAtIndex s (i / s.pageSize)).1 else s).items i) = _
    rw [if_pos h, (loadPage_preserves s (i / s.pageSize)).1]

/-- C5 witness: the amended statement at a fresh slot (stored value, no
load) and at the stale slot of the counterexample run (load triggered,
stale stored value returned). -/
theorem getItemAtIndex_fresh_or_load_witness :
    itemStale pexLoadedNoTotal 0 = false ∧
    getItemAtIndex pexLoadedNoTotal 0 = (pexLoadedNoTotal, jsGet pexLoadedNoTotal.items 0) ∧
    itemStale pexStaleApplied 0 = true ∧
    getItemAtIndex pexStaleApplied 0
      = ((loadPageAtIndex pexStaleApplied (0 / pexStaleApplied.pageSize)).1,
        jsGet pexStaleApplied.items 0) := by
  exact ⟨by decide, (getItemAtIndex_fresh_or_load pexLoadedNoTotal 0).1 (by decide), by decide,
    (getItemAtIndex_fresh_or_load pexStaleApplied 0).2 (by decide)⟩

/-! ## Claim C7 -/

/-- C7 (counterexample): a fresh list's page-0 fetch resolves with two
items and no `totalLength` attribute; `totalLength` is still the unknown
sentinel `-1`, yet `isFullyLoaded` becomes true (the `length >=
totalLength` comparison is vacuous against `-1`), contradicting the
claim that `isFullyLoaded` requires `totalLength` to be known. -/
theorem isFullyLoaded_without_totalLength_cex :
    pexLoadedNoTotal.isFullyLoaded = true ∧ pexLoadedNoTotal.totalLength = -1 := by
  decide

/-- C7 (amended): after a non-cancelled page-load completion,
`isFullyLoaded` holds iff the stamp array's length is at least
`totalLength` (vacuously true when `totalLength` is the unknown sentinel
`-1`) and every entry of the entire stamp array equals the current
version number. -/
theorem isFullyLoaded_iff_stamps_cover (s : PState Nat) (f : PageFetch) (d : Payload Nat)
    (now : Nat) (h : f.capturedGen = s.contextGen) :
    (pageLoadSucceed s f d now).isFullyLoaded = true ↔
      ((pageLoadSucceed s f d now).itemVersionNumbers.length : Int)
          ≥ (pageLoadSucceed s f d now).totalLength ∧
        ∀ v ∈ (pageLoadSucceed s f d now).itemVersionNumbers,
          v = some (pageLoadSucceed s f d now).versionNumber := by
  unfold pageLoadSucceed
  rw [if_pos h]
  simp [Bool.and_eq_true, List.all_eq_true, ge_iff_le]

/-- C7 witness: the amended statement at the concrete no-`totalLength`
completion — both stamps carry the current version and the length check
against `-1` is vacuous, so `isFullyLoaded` is true. -/
theorem isFullyLoaded_iff_stamps_cover_witness :
    (pageLoadSucceed pexAfterLoad0 pexFetch0 ⟨[10, 20], none, none⟩ 50).isFullyLoaded = true :=
  (isFullyLoaded_iff_stamps_cover pexAfterLoad0 pexFetch0 ⟨[10, 20], none, none⟩ 50
    (by decide)).mpr (by decide)

end MobxOrm
